import Mathlib

/-!
# Verification of the TutorIA quiz/game generation and scoring pipeline

Shallow embedding of the backend's core pipeline:

* `QuizService.calculate_score` (backend/services/quiz_service.py) — quiz scoring;
* `GamesService.generate_pasapalabra` and the other generation services
  (backend/services/games_service.py, quiz_service.py) — parse / validate /
  catch-and-default behaviour;
* the HTTP handlers `submit_quiz`, `generate_quiz`, `generate_pasapalabra`
  (backend/main.py) — status codes, response shapes and the quiz state machine.

Numeric convention: Python `float` arithmetic is embedded as exact rational
arithmetic (`ℚ`) throughout, except where a property genuinely depends on
IEEE-754 binary64 rounding; there a faithful round-to-nearest-even model at
53-bit precision (`rnd64`) is used and is stated explicitly.

Python `dict` records whose keys may be absent are embedded as structures with
`Option` fields; `d.get(k)` is the field itself, `d.get(k, v)` is `Option.getD`.
-/

namespace TutorIA

/-- A quiz question as stored in the JSON payload
(`quiz_service.py`, prompt format: question / options / correct_answer /
explanation).  All keys may be absent in a malformed generated entry, so every
field is an `Option`.  `question.get("correct_answer")` is `correct_answer`. -/
structure QuizQuestion where
  question : Option String
  options : Option (List String)
  correct_answer : Option Int
  explanation : Option String
deriving DecidableEq, Repr

/-- Shorthand for a well-formed question record carrying only a correct-answer
index, as in the spec's scenarios (`{correct_answer: 2}`). -/
def mkQ (c : Int) : QuizQuestion := ⟨none, none, some c, none⟩

/-- The accumulation loop of `QuizService.calculate_score`
(quiz_service.py lines 161-167):
`for i, question in enumerate(questions): if i < len(user_answers):
 if user_answers[i] == question.get("correct_answer"): correct += 1`.
Walking both lists in lockstep is exactly that loop: once `user_answers` is
exhausted (`i ≥ len(user_answers)`) nothing more is counted, and a missing
`correct_answer` key compares unequal to any integer answer (Python
`int == None` is `False`). -/
def correctCount : List QuizQuestion → List Int → Nat
  | [], _ => 0
  | _ :: _, [] => 0
  | q :: qs, a :: as =>
      (if q.correct_answer = some a then 1 else 0) + correctCount qs as

/-- `QuizService.calculate_score` (quiz_service.py lines 146-169):
`if not questions or not user_answers: return 0.0`, then count the correct
answers and `return (correct / total) * 100 if total > 0 else 0.0`. -/
def calculate_score (questions : List QuizQuestion) (user_answers : List Int) : ℚ :=
  if questions.isEmpty || user_answers.isEmpty then 0
  else
    let total := questions.length
    let correct := correctCount questions user_answers
    if 0 < total then ((correct : ℚ) / (total : ℚ)) * 100 else 0

/-- The count the specification describes: the number of indices
`i ∈ [0, len(questions))` such that `i < len(answers)` and
`answers[i] == questions[i].correct_answer`.  Stated over positions via
`List.get?`, independently of the loop in the source. -/
def specCount (questions : List QuizQuestion) (answers : List Int) : Nat :=
  ((List.range questions.length).filter fun i =>
    match questions.get? i, answers.get? i with
    | some q, some a => q.correct_answer = some a
    | _, _ => false).length

/-- Python `str.upper()` on a single character, restricted to the Unicode
simple uppercase mapping on the Basic Latin and Latin-1 blocks (the letters the
Pasapalabra payloads contain): the ASCII letters `a`-`z` and the Latin-1
letters `à`-`þ` (except the division sign `÷`) map 32 code points down; every
other character — including already-uppercase letters such as `Á` (U+00C1) —
is unchanged.  (Python's full case mapping additionally expands `ß`; no claim
touches it.) -/
def pyUpperChar (c : Char) : Char :=
  if 'a' ≤ c ∧ c ≤ 'z' then Char.ofNat (c.toNat - 32)
  else if 0xE0 ≤ c.toNat ∧ c.toNat ≤ 0xFE ∧ c.toNat ≠ 0xF7 then Char.ofNat (c.toNat - 32)
  else c

/-- Python `str.upper()` on a string: uppercase every character. -/
def pyUpper (s : String) : String := String.mk (s.data.map pyUpperChar)

/-- Python `str.strip()`: remove leading and trailing whitespace. -/
def pyStrip (s : String) : String :=
  String.mk ((s.data.dropWhile Char.isWhitespace).reverse.dropWhile
    Char.isWhitespace).reverse

/-- A Pasapalabra entry as parsed from the JSON payload (games_service.py,
prompt format: letter / definition / answer / type).  Keys may be absent
(`item.get(k, "")` defaults them to `""`), so every field is an `Option`. -/
structure PasaItem where
  letter : Option String
  definition : Option String
  answer : Option String
  type : Option String
deriving DecidableEq

/-- The kept-entry test of the Pasapalabra validation loop (games_service.py
lines 80-88): `letter = item.get("letter", "").upper()`,
`answer = item.get("answer", "").strip()`, keep the item iff
`answer and answer[0].upper() == letter`. -/
def pasaKeep (item : PasaItem) : Bool :=
  let letter := pyUpper (item.letter.getD "")
  let answer := pyStrip (item.answer.getD "")
  match answer.data with
  | [] => false
  | c :: _ => String.mk [pyUpperChar c] == letter

/-- The Pasapalabra validation loop (games_service.py lines 78-91):
`validated_letters` collects, in order, exactly the entries passing the kept
test, each unchanged. -/
def validate_letters (items : List PasaItem) : List PasaItem :=
  items.filter pasaKeep

/-- The parsed Pasapalabra payload: a JSON object whose `letters` key may be
absent (`if "letters" in game_data`). -/
structure PasaPayload where
  letters : Option (List PasaItem)
deriving DecidableEq

/-- `GamesService.generate_pasapalabra` (games_service.py lines 11-97) from the
point where the prompt build + endpoint call + `json.loads` have either
produced a parsed payload (`Except.ok`) or raised (`Except.error`): on
success, a present `letters` field is replaced by its validated sublist (an
absent one passes through); on any exception the function returns
`{"letters": []}`. -/
def generate_pasapalabra (gen : Except String PasaPayload) : PasaPayload :=
  match gen with
  | .error _ => ⟨some []⟩
  | .ok gd =>
      match gd.letters with
      | some items => ⟨some (validate_letters items)⟩
      | none => gd

/-- The parsed quiz payload: `quiz_data.get("questions", [])` defaults an
absent `questions` key to the empty list. -/
structure QuizPayload where
  questions : Option (List QuizQuestion)
deriving DecidableEq

/-- `QuizService.generate_quiz` (quiz_service.py lines 11-79) after the
endpoint call + `json.loads`: `return quiz_data.get("questions", [])`, and
`[]` on any exception. -/
def generate_quiz (gen : Except String QuizPayload) : List QuizQuestion :=
  match gen with
  | .error _ => []
  | .ok d => d.questions.getD []

/-- A study card as parsed from the JSON payload (question / answer /
difficulty). -/
structure StudyCard where
  question : Option String
  answer : Option String
  difficulty : Option String
deriving DecidableEq

/-- The parsed study-cards payload (`cards_data.get("cards", [])`). -/
structure CardsPayload where
  cards : Option (List StudyCard)
deriving DecidableEq

/-- `QuizService.generate_study_cards` (quiz_service.py lines 81-144):
`return cards_data.get("cards", [])`, and `[]` on any exception. -/
def generate_study_cards (gen : Except String CardsPayload) : List StudyCard :=
  match gen with
  | .error _ => []
  | .ok d => d.cards.getD []

/-- An Atrapa-un-Millón question as parsed from the JSON payload. -/
structure MillionQuestion where
  number : Option Int
  difficulty : Option String
  question : Option String
  options : Option (List String)
  correct_answer : Option Int
deriving DecidableEq

/-- The parsed Atrapa-un-Millón payload. -/
structure AtrapaPayload where
  questions : Option (List MillionQuestion)
deriving DecidableEq

/-- `GamesService.generate_atrapa_millon` (games_service.py lines 100-170):
`return game_data` unchanged on success, `{"questions": []}` on any
exception. -/
def generate_atrapa_millon (gen : Except String AtrapaPayload) : AtrapaPayload :=
  match gen with
  | .error _ => ⟨some []⟩
  | .ok gd => gd

/-- An escape-room enigma as parsed from the JSON payload. -/
structure Enigma where
  type : Option String
  question : Option String
  options : Option (List String)
  answer : Option String
  hint : Option String
deriving DecidableEq

/-- An escape-room room as parsed from the JSON payload. -/
structure Room where
  number : Option Int
  name : Option String
  description : Option String
  enigma : Option Enigma
deriving DecidableEq

/-- The parsed escape-room payload (title / theme / rooms). -/
structure EscapePayload where
  title : Option String
  theme : Option String
  rooms : Option (List Room)
deriving DecidableEq

/-- `GamesService.generate_escape_room` (games_service.py lines 172-243):
`return game_data` unchanged on success, `{"rooms": []}` on any exception. -/
def generate_escape_room (gen : Except String EscapePayload) : EscapePayload :=
  match gen with
  | .error _ => ⟨none, none, some []⟩
  | .ok gd => gd

/-- A hangman word as parsed from the JSON payload. -/
structure HangmanWord where
  word : Option String
  hint : Option String
  category : Option String
  difficulty : Option String
deriving DecidableEq

/-- The parsed hangman payload. -/
structure AhorcadoPayload where
  words : Option (List HangmanWord)
deriving DecidableEq

/-- `GamesService.generate_ahorcado` (games_service.py lines 245-310):
`return game_data` unchanged on success, `{"words": []}` on any exception. -/
def generate_ahorcado (gen : Except String AhorcadoPayload) : AhorcadoPayload :=
  match gen with
  | .error _ => ⟨some []⟩
  | .ok gd => gd

/-- An HTTP error response: `raise HTTPException(status_code=..., detail=...)`. -/
structure HTTPError where
  status_code : Nat
  detail : String
deriving DecidableEq

/-- A stored quiz row — the fields of `models.Quiz` that `submit_quiz`
reads or writes. -/
structure Quiz where
  questions : List QuizQuestion
  score : Option ℚ
  completed : Bool
deriving DecidableEq

/-- The JSON body returned by a successful `POST /api/quiz/{id}/submit`
(main.py lines 536-541). -/
structure SubmitResult where
  quiz_id : Nat
  score : ℚ
  total_questions : Nat
  correct_answers : Int
deriving DecidableEq

/-- Python `int(x)` on a rational: truncation toward zero. -/
def pyInt (x : ℚ) : Int := if 0 ≤ x then ⌊x⌋ else -⌊-x⌋

/-- The persistence store as `submit_quiz` sees it: quiz id → stored row
(`db.query(models.Quiz).filter(models.Quiz.id == quiz_id).first()`). -/
abbrev QuizStore := Nat → Option Quiz

/-- The `POST /api/quiz/{quiz_id}/submit` handler (main.py lines 511-541):
404 when no row has the id; 400 `"Quiz ya completado"` when the row is already
completed (leaving the store untouched); otherwise compute the score, mark the
row completed, and answer with quiz id, score, question count and
`int(score * len(questions) / 100)`. -/
def submit_quiz (store : QuizStore) (quiz_id : Nat) (answers : List Int) :
    Except HTTPError SubmitResult × QuizStore :=
  match store quiz_id with
  | none => (.error ⟨404, "Quiz no encontrado"⟩, store)
  | some quiz =>
    if quiz.completed then (.error ⟨400, "Quiz ya completado"⟩, store)
    else
      let score := calculate_score quiz.questions answers
      let quiz' : Quiz := { quiz with score := some score, completed := true }
      (.ok ⟨quiz_id, score, quiz.questions.length,
          pyInt (score * (quiz.questions.length : ℚ) / 100)⟩,
        fun i => if i = quiz_id then some quiz' else store i)

/-- A JSON value as it appears in a handler's response body.  Embedded
payloads keep their typed form (`jQuestions`, `jPasa`): the claims about
response shapes only inspect the top-level keys, flags and tags. -/
inductive JVal where
  | jBool : Bool → JVal
  | jNum : ℚ → JVal
  | jStr : String → JVal
  | jNull : JVal
  | jQuestions : List QuizQuestion → JVal
  | jPasa : PasaPayload → JVal
deriving DecidableEq

/-- The post-service logic of `POST /api/quiz/generate` (main.py lines
478-509): 500 `"No se pudieron generar las preguntas"` when the service
returned no questions; otherwise persist a row (`completed=False`, no score)
and answer with the created quiz row serialized by `schemas.QuizResponse` —
the row's own fields, with no `success` flag and no game tag.  `quiz_id`,
`student_id` and `created_at` stand for the database-assigned row metadata. -/
def generate_quiz_endpoint (quiz_id student_id : Nat)
    (subject topic created_at : String) (questions : List QuizQuestion) :
    Except HTTPError (List (String × JVal)) :=
  if questions.isEmpty then
    .error ⟨500, "No se pudieron generar las preguntas"⟩
  else
    .ok [("id", .jNum quiz_id), ("student_id", .jNum student_id),
         ("title", .jStr ("Quiz de " ++ subject ++ ": " ++ topic)),
         ("subject", .jStr subject), ("questions", .jQuestions questions),
         ("score", .jNull), ("completed", .jBool false),
         ("created_at", .jStr created_at)]

/-- The post-service logic of `POST /api/games/pasapalabra` (main.py lines
553-576): 500 `"No se pudo generar el Pasapalabra"` when the payload's
`letters` entry is absent or empty (`if not game_data.get("letters")`),
otherwise `{"success": True, "game": "pasapalabra", "data": game_data}`. -/
def generate_pasapalabra_endpoint (game_data : PasaPayload) :
    Except HTTPError (List (String × JVal)) :=
  if (game_data.letters.getD []).isEmpty then
    .error ⟨500, "No se pudo generar el Pasapalabra"⟩
  else
    .ok [("success", .jBool true), ("game", .jStr "pasapalabra"),
         ("data", .jPasa game_data)]

/-- `⌊log₂ n⌋` by structural recursion on a fuel bound (the argument halves
each step, so fuel 200 covers every value the embedding meets). -/
def log2Fuel : Nat → Nat → Nat
  | 0, _ => 0
  | fuel + 1, n => if n ≤ 1 then 0 else log2Fuel fuel (n / 2) + 1

/-- `⌈log₂ n⌉` by structural recursion on a fuel bound. -/
def clog2Fuel : Nat → Nat → Nat
  | 0, _ => 0
  | fuel + 1, n => if n ≤ 1 then 0 else clog2Fuel fuel ((n + 1) / 2) + 1

/-- `2 ^ k` in `ℚ` for an integer exponent. -/
def qpow2 (k : Int) : ℚ :=
  if 0 ≤ k then ((2 ^ k.toNat : Nat) : ℚ) else (((2 ^ (-k).toNat : Nat) : ℚ))⁻¹

/-- The binary64 exponent of a positive rational: the unique `e` with
`2 ^ e ≤ q < 2 ^ (e + 1)`.  For `q ≥ 1` this is `⌊log₂ ⌊q⌋⌋`; for `0 < q < 1`
it is `-⌈log₂ ⌈1/q⌉⌉` — both identities hold because powers of two are
integers. -/
def exp64 (q : ℚ) : Int :=
  if 1 ≤ q then (log2Fuel 200 ⌊q⌋.toNat : Int)
  else -(clog2Fuel 200 ⌈q⁻¹⌉.toNat : Int)

/-- Round a positive rational to the nearest IEEE-754 binary64 value: scale
into the 53-bit significand range, round half to even, scale back.  Valid in
the normal range; every value in the score round-trip lies well inside it. -/
def rnd64Pos (q : ℚ) : ℚ :=
  let s := qpow2 (52 - exp64 q)
  let x := q * s
  let m := ⌊x⌋
  let r := x - (m : ℚ)
  let m' := if r < 1 / 2 then m else if 1 / 2 < r then m + 1
            else if m % 2 = 0 then m else m + 1
  (m' : ℚ) / s

/-- Round a rational to the nearest IEEE-754 binary64 value. -/
def rnd64 (q : ℚ) : ℚ :=
  if q = 0 then 0 else if q < 0 then -rnd64Pos (-q) else rnd64Pos q

/-- `score = (correct / total) * 100` as the running Python evaluates it: the
division and the multiplication each round to binary64
(quiz_service.py line 169). -/
def score64 (c n : Nat) : ℚ := rnd64 (rnd64 ((c : ℚ) / (n : ℚ)) * 100)

/-- `int(score * total_questions / 100)` as the running Python evaluates it
(main.py line 540): the multiplication and the division each round to
binary64 before `int` truncates toward zero. -/
def correct_answers64 (c n : Nat) : Int :=
  pyInt (rnd64 (rnd64 (score64 c n * (n : ℚ)) / 100))

/-- The property C2 states for returned Pasapalabra entries, read on the
whitespace-stripped answer: the stripped answer is nonempty and its first
character, uppercased, equals the uppercased letter. -/
def strippedFirstMatches (item : PasaItem) : Prop :=
  ∃ c rest, (pyStrip (item.answer.getD "")).data = c :: rest ∧
    String.mk [pyUpperChar c] = pyUpper (item.letter.getD "")

/-- The property C2 literally states for returned Pasapalabra entries: the
first character of the `answer` field exactly as returned, uppercased, equals
the uppercased letter. -/
def firstCharUpperMatches (item : PasaItem) : Bool :=
  match (item.answer.getD "").data with
  | [] => false
  | c :: _ => String.mk [pyUpperChar c] == pyUpper (item.letter.getD "")

end TutorIA

namespace TutorIA

theorem specCount_nil_left (ans : List Int) : specCount [] ans = 0 := by
  simp [specCount]

theorem specCount_nil_right (qs : List QuizQuestion) : specCount qs [] = 0 := by
  simp only [specCount]
  rw [List.filter_eq_nil_iff.mpr, List.length_nil]
  intro i _
  rcases h : qs.get? i with _ | q <;> simp [h]

theorem specCount_cons (q : QuizQuestion) (qs : List QuizQuestion) (a : Int)
    (as : List Int) :
    specCount (q :: qs) (a :: as) =
      (if q.correct_answer = some a then 1 else 0) + specCount qs as := by
  have hrange : List.range (qs.length + 1) = 0 :: (List.range qs.length).map Nat.succ :=
    List.range_succ_eq_map qs.length
  simp only [specCount, List.length_cons, hrange, List.filter_cons, List.filter_map,
    List.getElem?_cons_zero, List.get?_eq_getElem?]
  by_cases hqa : q.correct_answer = some a <;>
    simp [hqa, Function.comp_def, Nat.succ_eq_add_one, List.getElem?_cons_succ, Nat.add_comm]

theorem correctCount_eq_specCount (qs : List QuizQuestion) (ans : List Int) :
    correctCount qs ans = specCount qs ans := by
  induction qs generalizing ans with
  | nil => simp [correctCount, specCount_nil_left]
  | cons q qs ih =>
    cases ans with
    | nil => simp [correctCount, specCount_nil_right]
    | cons a as => rw [specCount_cons, correctCount, ih]

theorem correctCount_le_length (qs : List QuizQuestion) (ans : List Int) :
    correctCount qs ans ≤ qs.length := by
  induction qs generalizing ans with
  | nil => simp [correctCount]
  | cons q qs ih =>
    cases ans with
    | nil => simp [correctCount]
    | cons a as =>
      have := ih as
      by_cases hqa : q.correct_answer = some a <;> simp [correctCount, hqa] <;> omega

theorem specCount_le_length (qs : List QuizQuestion) (ans : List Int) :
    specCount qs ans ≤ qs.length := by
  rw [← correctCount_eq_specCount]
  exact correctCount_le_length qs ans

theorem correctCount_append (qs : List QuizQuestion) (ans extra : List Int)
    (h : qs.length ≤ ans.length) :
    correctCount qs (ans ++ extra) = correctCount qs ans := by
  induction qs generalizing ans with
  | nil => simp [correctCount]
  | cons q qs ih =>
    cases ans with
    | nil => simp at h
    | cons a as =>
      simp only [List.cons_append, correctCount, List.append_eq]
      rw [ih as (by simpa using h)]

theorem calculate_score_append (qs : List QuizQuestion) (ans extra : List Int)
    (h : qs.length ≤ ans.length) :
    calculate_score qs (ans ++ extra) = calculate_score qs ans := by
  rcases qs with _ | ⟨q, qs'⟩
  · simp [calculate_score]
  · rcases ans with _ | ⟨a, as⟩
    · simp at h
    · have hcc := correctCount_append (q :: qs') (a :: as) extra h
      simp only [List.cons_append] at hcc
      simp [calculate_score, hcc]

theorem calculate_score_eq (qs : List QuizQuestion) (ans : List Int) :
    calculate_score qs ans =
      if qs = [] then 0 else 100 * (specCount qs ans : ℚ) / (qs.length : ℚ) := by
  rcases qs with _ | ⟨q, qs⟩
  · simp [calculate_score]
  · rcases ans with _ | ⟨a, as⟩
    · simp [calculate_score, specCount_nil_right]
    · have h := correctCount_eq_specCount (q :: qs) (a :: as)
      simp only [calculate_score, List.isEmpty_cons, Bool.false_or, if_neg,
        reduceCtorEq, reduceIte, h]
      have hl : (0 : ℚ) < ((q :: qs).length : ℚ) := by
        simp [List.length_cons]
        positivity
      simp only [List.length_cons, Nat.zero_lt_succ, if_true, if_pos]
      ring

theorem calculate_score_nonneg (qs : List QuizQuestion) (ans : List Int) :
    0 ≤ calculate_score qs ans := by
  rw [calculate_score_eq]
  split
  · exact le_refl 0
  · positivity

theorem calculate_score_le_100 (qs : List QuizQuestion) (ans : List Int) :
    calculate_score qs ans ≤ 100 := by
  rw [calculate_score_eq]
  split
  · norm_num
  · rename_i hne
    have hl : (0 : ℚ) < (qs.length : ℚ) := by
      have := List.length_pos.mpr hne
      exact_mod_cast this
    rw [div_le_iff₀ hl]
    have hc : (specCount qs ans : ℚ) ≤ (qs.length : ℚ) := by
      exact_mod_cast specCount_le_length qs ans
    nlinarith

/-- C1: `calculate_score` returns `100 * c / len(questions)` where `c` counts the
indices `i ∈ [0, len(questions))` with `i < len(answers)` and
`answers[i] == questions[i].correct_answer`; it returns `0` for an empty
question list; answers at indices `≥ len(questions)` do not change the result;
missing answers count as incorrect; the result always lies in `[0, 100]`; and
the three concrete scenarios from the spec evaluate as stated. -/
theorem C1_calculate_score_spec (qs : List QuizQuestion) (ans : List Int) :
    calculate_score qs ans =
        (if qs = [] then 0 else 100 * (specCount qs ans : ℚ) / (qs.length : ℚ)) ∧
    0 ≤ calculate_score qs ans ∧ calculate_score qs ans ≤ 100 ∧
    (∀ extra : List Int, qs.length ≤ ans.length →
        calculate_score qs (ans ++ extra) = calculate_score qs ans) ∧
    calculate_score [mkQ 2] [2] = 100 ∧
    calculate_score [mkQ 2] [0] = 0 ∧
    calculate_score [mkQ 0, mkQ 1] [0, 0] = 50 := by
  refine ⟨calculate_score_eq qs ans, calculate_score_nonneg qs ans,
    calculate_score_le_100 qs ans, ?_, ?_, ?_, ?_⟩
  · intro extra h
    exact calculate_score_append qs ans extra h
  · norm_num [calculate_score, correctCount, mkQ]
  · norm_num [calculate_score, correctCount, mkQ]
  · norm_num [calculate_score, correctCount, mkQ]

/-- Witness for C1: instantiated at the spec's 50% scenario, with a surplus
answer `5` appended past the end of the question list. -/
theorem C1_calculate_score_spec_witness :
    calculate_score [mkQ 0, mkQ 1] ([0, 0] ++ [5]) = calculate_score [mkQ 0, mkQ 1] [0, 0] ∧
    calculate_score [mkQ 0, mkQ 1] [0, 0] = 50 := by
  have h := C1_calculate_score_spec [mkQ 0, mkQ 1] [0, 0]
  exact ⟨h.2.2.2.1 [5] (by simp), h.2.2.2.2.2.2⟩

theorem pasaKeep_iff (item : PasaItem) :
    pasaKeep item = true ↔ strippedFirstMatches item := by
  unfold pasaKeep strippedFirstMatches
  rcases h : (pyStrip (item.answer.getD "")).data with _ | ⟨c, rest⟩ <;> simp [h]

theorem pasaKeep_false_of_blank (item : PasaItem)
    (h : item.answer = none ∨ pyStrip (item.answer.getD "") = "") :
    pasaKeep item = false := by
  rcases h with h | h
  · simp [pasaKeep, h, pyStrip]
  · simp [pasaKeep, h]

theorem generate_pasapalabra_ok (parsed : List PasaItem) :
    (generate_pasapalabra (.ok ⟨some parsed⟩)).letters.getD []
      = parsed.filter pasaKeep := rfl

/-- C2 (amended): every entry in the list returned by `generate_pasapalabra`
has a nonempty whitespace-stripped answer whose first character, uppercased,
equals the entry's letter uppercased (the code strips the answer before the
first-letter test; the claim as frozen reads the test on the unstripped
answer and fails on an answer with a leading space); every parsed entry
violating the stripped property is absent from the output; and validation only
shrinks the collection, so at most as many entries come back as were parsed
(N ≤ 26 when 26 were parsed). -/
theorem C2_pasapalabra_validation (parsed : List PasaItem) :
    (∀ item ∈ (generate_pasapalabra (.ok ⟨some parsed⟩)).letters.getD [],
        strippedFirstMatches item) ∧
    (∀ item ∈ parsed, ¬ strippedFirstMatches item →
        item ∉ (generate_pasapalabra (.ok ⟨some parsed⟩)).letters.getD []) ∧
    ((generate_pasapalabra (.ok ⟨some parsed⟩)).letters.getD []).length
      ≤ parsed.length := by
  rw [generate_pasapalabra_ok]
  refine ⟨?_, ?_, List.length_filter_le _ _⟩
  · intro item hm
    exact (pasaKeep_iff item).mp (List.mem_filter.mp hm).2
  · intro item _ hviol hm
    exact hviol ((pasaKeep_iff item).mp (List.mem_filter.mp hm).2)

/-- Witness for C2 (amended) on the parsed list
`[{letter:"A", answer:"Agua"}, {letter:"B", answer:"Sol"}]`: the kept entry
satisfies the stripped first-letter property, the mismatched entry is absent,
and at most two entries come back. -/
theorem C2_pasapalabra_validation_witness :
    strippedFirstMatches ⟨some "A", some "d", some "Agua", some "starts"⟩ ∧
    (⟨some "B", some "d", some "Sol", some "starts"⟩ : PasaItem) ∉
      (generate_pasapalabra (.ok ⟨some [⟨some "A", some "d", some "Agua", some "starts"⟩,
        ⟨some "B", some "d", some "Sol", some "starts"⟩]⟩)).letters.getD [] ∧
    ((generate_pasapalabra (.ok ⟨some [⟨some "A", some "d", some "Agua", some "starts"⟩,
        ⟨some "B", some "d", some "Sol", some "starts"⟩]⟩)).letters.getD []).length ≤ 2 := by
  have h := C2_pasapalabra_validation
    [⟨some "A", some "d", some "Agua", some "starts"⟩,
     ⟨some "B", some "d", some "Sol", some "starts"⟩]
  refine ⟨h.1 _ (by decide), h.2.1 _ (by decide) ?_, by simpa using h.2.2⟩
  rintro ⟨c, rest, hd, hm⟩
  have hSol : (pyStrip ((some "Sol").getD "")).data = 'S' :: ['o', 'l'] := by decide
  rw [hSol] at hd
  injection hd with hc _
  subst hc
  revert hm
  decide

/-- C2 counterexample: the entry `{letter:"B", answer:" Beta"}` (note the
leading space) is kept by the validator, because the code strips the answer
before comparing first letters; but the first character of its `answer` field
as returned is `' '`, whose uppercase is not `"B"`.  So the claim as frozen —
every returned entry's answer has a first character that uppercases to the
letter, and every violating entry is absent — is false at this input. -/
theorem C2_counterexample_leading_space :
    (generate_pasapalabra (.ok ⟨some [⟨some "B", none, some " Beta", some "starts"⟩]⟩)).letters
        = some [⟨some "B", none, some " Beta", some "starts"⟩] ∧
    firstCharUpperMatches ⟨some "B", none, some " Beta", some "starts"⟩ = false := by
  decide

/-- C4: on any exception raised by the generation endpoint or by JSON parsing,
each generation function returns the empty container for its content type:
`[]` for quizzes and study cards, `{"letters": []}` for Pasapalabra,
`{"questions": []}` for Atrapa-un-Millón, `{"rooms": []}` for the escape room,
`{"words": []}` for hangman. -/
theorem C4_exception_yields_empty_container (e : String) :
    generate_quiz (.error e) = [] ∧
    generate_study_cards (.error e) = [] ∧
    generate_pasapalabra (.error e) = ⟨some []⟩ ∧
    generate_atrapa_millon (.error e) = ⟨some []⟩ ∧
    generate_escape_room (.error e) = ⟨none, none, some []⟩ ∧
    generate_ahorcado (.error e) = ⟨some []⟩ :=
  ⟨rfl, rfl, rfl, rfl, rfl, rfl⟩

/-- C6 (code bug): on the parsed list `[{letter:"A", answer:"Átomo"},
{letter:"B", answer:"Zorro"}]` the validator returns the empty list, not just
the first entry: Python's `'Á'.upper()` is `'Á'`, which is a different
character from `'A'`, so "Átomo" is dropped — even though the code's own
generation prompt presents "Átomo" as a valid answer for the letter A.  The
claim describes the evident intent; the accent-insensitive comparison the code
needed is missing. -/
theorem C6_validator_drops_accented_entry :
    generate_pasapalabra (.ok ⟨some [⟨some "A", none, some "Átomo", none⟩,
        ⟨some "B", none, some "Zorro", none⟩]⟩) = ⟨some []⟩ ∧
    pyUpperChar 'Á' = 'Á' := by
  decide

/-- C8: for the quiz, study-card, atrapa-millón, escape-room and ahorcado
content types the pipeline applies no per-entry structural post-filter: the
parsed payload field is handed back to the caller entry for entry, unchanged —
including a malformed quiz question with a single option and no
`correct_answer`, which propagates as-is. -/
theorem C8_no_structural_postfilter :
    (∀ d : QuizPayload, generate_quiz (.ok d) = d.questions.getD []) ∧
    (∀ d : CardsPayload, generate_study_cards (.ok d) = d.cards.getD []) ∧
    (∀ d : AtrapaPayload, generate_atrapa_millon (.ok d) = d) ∧
    (∀ d : EscapePayload, generate_escape_room (.ok d) = d) ∧
    (∀ d : AhorcadoPayload, generate_ahorcado (.ok d) = d) ∧
    generate_quiz (.ok ⟨some [⟨some "q", some ["only option"], none, none⟩]⟩)
      = [⟨some "q", some ["only option"], none, none⟩] :=
  ⟨fun _ => rfl, fun _ => rfl, fun _ => rfl, fun _ => rfl, fun _ => rfl, rfl⟩

/-- C10: Pasapalabra validation returns an order-preserving subsequence of the
parsed entry list — every kept entry is the identical record, no field is
rewritten — and every entry whose `answer` key is absent, or whose answer
strips to the empty string, is dropped. -/
theorem C10_validation_sublist_and_blank_drop (items : List PasaItem) :
    ((generate_pasapalabra (.ok ⟨some items⟩)).letters.getD []).Sublist items ∧
    (∀ item ∈ items, (item.answer = none ∨ pyStrip (item.answer.getD "") = "") →
        item ∉ (generate_pasapalabra (.ok ⟨some items⟩)).letters.getD []) := by
  rw [generate_pasapalabra_ok]
  refine ⟨List.filter_sublist items, ?_⟩
  intro item _ hblank hm
  have hkeep := (List.mem_filter.mp hm).2
  rw [pasaKeep_false_of_blank item hblank] at hkeep
  exact Bool.false_ne_true hkeep

/-- Witness for C10 on a three-entry list: the output is a sublist, the
whitespace-only answer is dropped, and the entry with no answer key is
dropped. -/
theorem C10_validation_sublist_and_blank_drop_witness :
    ((generate_pasapalabra (.ok ⟨some [⟨some "A", none, some "Agua", none⟩,
        ⟨some "B", none, some "   ", none⟩,
        ⟨some "C", none, none, none⟩]⟩)).letters.getD []).Sublist
      [⟨some "A", none, some "Agua", none⟩, ⟨some "B", none, some "   ", none⟩,
        ⟨some "C", none, none, none⟩] ∧
    (⟨some "B", none, some "   ", none⟩ : PasaItem) ∉
      (generate_pasapalabra (.ok ⟨some [⟨some "A", none, some "Agua", none⟩,
        ⟨some "B", none, some "   ", none⟩,
        ⟨some "C", none, none, none⟩]⟩)).letters.getD [] ∧
    (⟨some "C", none, none, none⟩ : PasaItem) ∉
      (generate_pasapalabra (.ok ⟨some [⟨some "A", none, some "Agua", none⟩,
        ⟨some "B", none, some "   ", none⟩,
        ⟨some "C", none, none, none⟩]⟩)).letters.getD [] := by
  have h := C10_validation_sublist_and_blank_drop
    [⟨some "A", none, some "Agua", none⟩, ⟨some "B", none, some "   ", none⟩,
     ⟨some "C", none, none, none⟩]
  exact ⟨h.1, h.2 _ (by decide) (Or.inr (by decide)), h.2 _ (by decide) (Or.inl rfl)⟩

theorem rnd64_of_pos (q : ℚ) (h : 0 < q) : rnd64 q = rnd64Pos q := by
  rw [rnd64, if_neg h.ne', if_neg (not_lt.mpr h.le)]

theorem exp64_of_one_le (q : ℚ) (n e : Nat) (h1 : 1 ≤ q) (hf : ⌊q⌋ = (n : Int))
    (hl : log2Fuel 200 n = e) : exp64 q = (e : Int) := by
  simp [exp64, h1, hf, hl]

theorem exp64_of_lt_one (q : ℚ) (n e : Nat) (h1 : ¬ 1 ≤ q) (hc : ⌈q⁻¹⌉ = (n : Int))
    (hl : clog2Fuel 200 n = e) : exp64 q = -(e : Int) := by
  simp [exp64, h1, hc, hl]

theorem rnd64Pos_eq_down (q : ℚ) (m : Int)
    (hm : ⌊q * qpow2 (52 - exp64 q)⌋ = m)
    (hr : q * qpow2 (52 - exp64 q) - (m : ℚ) < 1 / 2) :
    rnd64Pos q = (m : ℚ) / qpow2 (52 - exp64 q) := by
  simp only [rnd64Pos, hm]
  rw [if_pos hr]

theorem rnd64Pos_eq_up (q : ℚ) (m : Int)
    (hm : ⌊q * qpow2 (52 - exp64 q)⌋ = m)
    (hr : 1 / 2 < q * qpow2 (52 - exp64 q) - (m : ℚ)) :
    rnd64Pos q = ((m + 1 : Int) : ℚ) / qpow2 (52 - exp64 q) := by
  simp only [rnd64Pos, hm]
  rw [if_neg (by linarith), if_pos hr]

theorem rnd64_third : rnd64 ((1 : ℚ) / 3) = 6004799503160661 / 2 ^ 54 := by
  have he : exp64 ((1 : ℚ) / 3) = -(2 : Int) := by
    apply exp64_of_lt_one _ 3 2
    · norm_num
    · have h3 : ((1 : ℚ) / 3)⁻¹ = 3 := by norm_num
      rw [h3]
      norm_num
    · decide
  have hs : qpow2 (52 - exp64 ((1 : ℚ) / 3)) = 2 ^ 54 := by
    rw [he]
    norm_num [qpow2]
    decide
  have hm : ⌊(1 : ℚ) / 3 * qpow2 (52 - exp64 ((1 : ℚ) / 3))⌋ = 6004799503160661 := by
    rw [hs, Int.floor_eq_iff]
    norm_num
  rw [rnd64_of_pos _ (by norm_num), rnd64Pos_eq_down _ _ hm (by rw [hs]; norm_num), hs]
  norm_num

theorem rnd64_step2 :
    rnd64 ((6004799503160661 : ℚ) / 2 ^ 54 * 100) = 4691249611844266 / 2 ^ 47 := by
  have he : exp64 ((6004799503160661 : ℚ) / 2 ^ 54 * 100) = (5 : Int) := by
    apply exp64_of_one_le _ 33 5
    · norm_num
    · rw [Int.floor_eq_iff]
      norm_num
    · decide
  have hs : qpow2 (52 - exp64 ((6004799503160661 : ℚ) / 2 ^ 54 * 100)) = 2 ^ 47 := by
    rw [he]
    norm_num [qpow2]
    decide
  have hm : ⌊(6004799503160661 : ℚ) / 2 ^ 54 * 100 *
      qpow2 (52 - exp64 ((6004799503160661 : ℚ) / 2 ^ 54 * 100))⌋ = 4691249611844266 := by
    rw [hs, Int.floor_eq_iff]
    norm_num
  rw [rnd64_of_pos _ (by norm_num), rnd64Pos_eq_down _ _ hm (by rw [hs]; norm_num), hs]
  norm_num

theorem rnd64_step3 :
    rnd64 ((4691249611844266 : ℚ) / 2 ^ 47 * 3) = 7036874417766399 / 2 ^ 46 := by
  have he : exp64 ((4691249611844266 : ℚ) / 2 ^ 47 * 3) = (6 : Int) := by
    apply exp64_of_one_le _ 99 6
    · norm_num
    · rw [Int.floor_eq_iff]
      norm_num
    · decide
  have hs : qpow2 (52 - exp64 ((4691249611844266 : ℚ) / 2 ^ 47 * 3)) = 2 ^ 46 := by
    rw [he]
    norm_num [qpow2]
    decide
  have hm : ⌊(4691249611844266 : ℚ) / 2 ^ 47 * 3 *
      qpow2 (52 - exp64 ((4691249611844266 : ℚ) / 2 ^ 47 * 3))⌋ = 7036874417766399 := by
    rw [hs, Int.floor_eq_iff]
    norm_num
  rw [rnd64_of_pos _ (by norm_num), rnd64Pos_eq_down _ _ hm (by rw [hs]; norm_num), hs]
  norm_num

theorem rnd64_step4 :
    rnd64 ((7036874417766399 : ℚ) / 2 ^ 46 / 100) = 9007199254740991 / 2 ^ 53 := by
  have he : exp64 ((7036874417766399 : ℚ) / 2 ^ 46 / 100) = -(1 : Int) := by
    apply exp64_of_lt_one _ 2 1
    · norm_num
    · rw [Int.ceil_eq_iff]
      norm_num
    · decide
  have hs : qpow2 (52 - exp64 ((7036874417766399 : ℚ) / 2 ^ 46 / 100)) = 2 ^ 53 := by
    rw [he]
    norm_num [qpow2]
    decide
  have hm : ⌊(7036874417766399 : ℚ) / 2 ^ 46 / 100 *
      qpow2 (52 - exp64 ((7036874417766399 : ℚ) / 2 ^ 46 / 100))⌋ = 9007199254740990 := by
    rw [hs, Int.floor_eq_iff]
    norm_num
  rw [rnd64_of_pos _ (by norm_num), rnd64Pos_eq_up _ _ hm (by rw [hs]; norm_num), hs]
  norm_num

theorem score64_one_three : score64 1 3 = 4691249611844266 / 2 ^ 47 := by
  simp only [score64, Nat.cast_one, Nat.cast_ofNat]
  rw [rnd64_third, rnd64_step2]

theorem correct_answers64_one_three : correct_answers64 1 3 = 0 := by
  simp only [correct_answers64, score64_one_three, Nat.cast_ofNat]
  rw [rnd64_step3, rnd64_step4, pyInt, if_pos (by norm_num), Int.floor_eq_iff]
  norm_num

/-- C9 (code bug): the `correct_answers` value the submit endpoint reports
does not always round-trip through the percentage score, because the code
evaluates it in binary64.  For a quiz of 3 stored questions and answers with
exactly 1 correct, the code computes `score = (1/3)*100` and then
`int(score*3/100)`; in binary64 the value reaching `int` is
9007199254740991/2^53 < 1, so the endpoint reports 0 correct answers.  The
exact count is 1, and evaluating the very same formula in exact arithmetic
also gives 1 — the claim states the evident intent of the field, and the
truncation of the rounded quotient is the slip. -/
theorem C9_correct_answers_roundtrip_fails_in_binary64 :
    correct_answers64 1 3 = 0 ∧
    correctCount [mkQ 0, mkQ 0, mkQ 0] [0, 1, 1] = 1 ∧
    pyInt (calculate_score [mkQ 0, mkQ 0, mkQ 0] [0, 1, 1] * (3 : ℚ) / 100) = 1 := by
  refine ⟨correct_answers64_one_three, by decide, ?_⟩
  have hs : calculate_score [mkQ 0, mkQ 0, mkQ 0] [0, 1, 1] = 100 / 3 := by
    norm_num [calculate_score, correctCount, mkQ]
  rw [hs, pyInt, if_pos (by norm_num)]
  norm_num

/-- C3: the quiz submit state machine.  Submitting to an already-completed
quiz fails with 400 `"Quiz ya completado"` and leaves the store (hence the
stored score and completed flag) unchanged; submitting to an unknown id fails
with 404 `"Quiz no encontrado"`; submitting to an existing, not-completed quiz
computes the score, marks the row completed, and any second submit on the
resulting store fails — `submit` is the only transition out of the created
state and it is terminal. -/
theorem C3_submit_state_machine (store : QuizStore) (qid : Nat)
    (answers : List Int) :
    (∀ q, store qid = some q → q.completed = true →
        submit_quiz store qid answers = (.error ⟨400, "Quiz ya completado"⟩, store)) ∧
    (store qid = none →
        submit_quiz store qid answers = (.error ⟨404, "Quiz no encontrado"⟩, store)) ∧
    (∀ q, store qid = some q → q.completed = false →
        (submit_quiz store qid answers).1 =
          .ok ⟨qid, calculate_score q.questions answers, q.questions.length,
            pyInt (calculate_score q.questions answers * (q.questions.length : ℚ) / 100)⟩ ∧
        (submit_quiz store qid answers).2 qid =
          some { q with score := some (calculate_score q.questions answers),
                        completed := true } ∧
        ∀ answers2 : List Int,
          (submit_quiz (submit_quiz store qid answers).2 qid answers2).1 =
            .error ⟨400, "Quiz ya completado"⟩) := by
  refine ⟨?_, ?_, ?_⟩
  · intro q hq hc
    simp [submit_quiz, hq, hc]
  · intro h
    simp [submit_quiz, h]
  · intro q hq hc
    refine ⟨?_, ?_, ?_⟩
    · simp [submit_quiz, hq, hc]
    · simp [submit_quiz, hq, hc]
    · intro answers2
      simp [submit_quiz, hq, hc]

/-- Witness for C3 on a one-quiz store: a first submit succeeds with score
100, a second submit on the updated store fails with 400, and a submit to an
unknown id fails with 404. -/
theorem C3_submit_state_machine_witness :
    (submit_quiz (fun i => if i = 1 then some ⟨[mkQ 2], none, false⟩ else none)
        1 [2]).1 =
      .ok ⟨1, calculate_score [mkQ 2] [2], 1,
        pyInt (calculate_score [mkQ 2] [2] * ((1 : Nat) : ℚ) / 100)⟩ ∧
    (submit_quiz
        (submit_quiz (fun i => if i = 1 then some ⟨[mkQ 2], none, false⟩ else none)
          1 [2]).2 1 [7]).1 =
      .error ⟨400, "Quiz ya completado"⟩ ∧
    submit_quiz (fun i => if i = 1 then some ⟨[mkQ 2], none, false⟩ else none)
        2 [2] =
      (.error ⟨404, "Quiz no encontrado"⟩,
        fun i => if i = 1 then some ⟨[mkQ 2], none, false⟩ else none) := by
  have h := C3_submit_state_machine
    (fun i => if i = 1 then some ⟨[mkQ 2], none, false⟩ else none) 1 [2]
  have h404 := C3_submit_state_machine
    (fun i => if i = 1 then some ⟨[mkQ 2], none, false⟩ else none) 2 [2]
  obtain ⟨hok, -, hsecond⟩ := h.2.2 ⟨[mkQ 2], none, false⟩ (by simp) rfl
  exact ⟨hok, hsecond [7], h404.2.1 (by simp)⟩

/-- C5 counterexample: with a non-empty generated question list the quiz
generation handler answers with the serialized quiz row, which carries no
`success` flag (and no type tag); so the claim — every generation endpoint's
non-empty response is a success payload containing the success flag — is false
at this input. -/
theorem C5_counterexample_quiz_success_response_has_no_flag :
    (generate_quiz_endpoint 1 1 "Matemáticas" "Fracciones" "t" [mkQ 2]).toOption.map
        (fun body => body.lookup "success") = some none := by
  rfl

/-- C5 (amended): when the collection coming back from the service layer is
empty, the handler responds 500 with a human-readable detail — for quiz
generation the detail contains "No se pudieron generar" — and when it is
non-empty, the game handlers respond `{success, game, data}`; the quiz
handler instead responds with the created quiz row, which has no success
flag. -/
theorem C5_empty_collection_500 (quiz_id student_id : Nat)
    (subject topic created_at : String) (questions : List QuizQuestion)
    (game_data : PasaPayload) :
    (questions = [] →
        generate_quiz_endpoint quiz_id student_id subject topic created_at questions =
          .error ⟨500, "No se pudieron generar las preguntas"⟩ ∧
        "No se pudieron generar".data <:+: "No se pudieron generar las preguntas".data) ∧
    (questions ≠ [] →
        generate_quiz_endpoint quiz_id student_id subject topic created_at questions =
          .ok [("id", .jNum quiz_id), ("student_id", .jNum student_id),
               ("title", .jStr ("Quiz de " ++ subject ++ ": " ++ topic)),
               ("subject", .jStr subject), ("questions", .jQuestions questions),
               ("score", .jNull), ("completed", .jBool false),
               ("created_at", .jStr created_at)] ∧
        [("id", (.jNum quiz_id : JVal))].lookup "success" = none) ∧
    (game_data.letters.getD [] = [] →
        generate_pasapalabra_endpoint game_data =
          .error ⟨500, "No se pudo generar el Pasapalabra"⟩) ∧
    (game_data.letters.getD [] ≠ [] →
        generate_pasapalabra_endpoint game_data =
          .ok [("success", .jBool true), ("game", .jStr "pasapalabra"),
               ("data", .jPasa game_data)]) := by
  refine ⟨?_, ?_, ?_, ?_⟩
  · intro h
    subst h
    exact ⟨rfl, ⟨[], " las preguntas".data, rfl⟩⟩
  · intro h
    refine ⟨?_, rfl⟩
    rw [generate_quiz_endpoint, if_neg]
    simpa using h
  · intro h
    rw [generate_pasapalabra_endpoint, if_pos]
    rw [h]
    rfl
  · intro h
    rw [generate_pasapalabra_endpoint, if_neg]
    simpa using h

/-- Witness for C5 (amended): the empty quiz list gives the 500 with the
"No se pudieron generar" message, the empty Pasapalabra payload gives its 500,
and a one-entry Pasapalabra payload gives the tagged success body. -/
theorem C5_empty_collection_500_witness :
    generate_quiz_endpoint 1 2 "M" "T" "t" [] =
      .error ⟨500, "No se pudieron generar las preguntas"⟩ ∧
    generate_pasapalabra_endpoint ⟨some []⟩ =
      .error ⟨500, "No se pudo generar el Pasapalabra"⟩ ∧
    generate_pasapalabra_endpoint ⟨some [⟨some "A", none, some "Agua", none⟩]⟩ =
      .ok [("success", .jBool true), ("game", .jStr "pasapalabra"),
           ("data", .jPasa ⟨some [⟨some "A", none, some "Agua", none⟩]⟩)] := by
  have h1 := C5_empty_collection_500 1 2 "M" "T" "t" [] ⟨some []⟩
  have h2 := C5_empty_collection_500 1 2 "M" "T" "t" [] ⟨some [⟨some "A", none, some "Agua", none⟩]⟩
  exact ⟨(h1.1 rfl).1, h1.2.2.1 rfl, h2.2.2.2 (by simp)⟩

/-- C7 counterexample: the claim says every swap of two questions'
`correct_answer` indices changes the score.  With questions whose correct
answers are `0` and `1` and user answers `[0, 0]`, swapping turns one correct
answer at position 0 into one correct answer at position 1: the score is 50
both before and after, so the universally quantified claim is false. -/
theorem C7_counterexample_swap_preserves_score :
    calculate_score [mkQ 0, mkQ 1] [0, 0] = calculate_score [mkQ 1, mkQ 0] [0, 0] := by
  norm_num [calculate_score, correctCount, mkQ]

/-- C7 (amended): swapping two questions' `correct_answer` indices while keeping
the user answers fixed CAN change the score — the function is order-sensitive
and index-aligned — but does not do so for every input.  Witnessed by answers
`[0, 2]` against correct answers `0, 1`: the swap turns the score from 50 to 0. -/
theorem C7_swap_can_change_score :
    calculate_score [mkQ 0, mkQ 1] [0, 2] ≠ calculate_score [mkQ 1, mkQ 0] [0, 2] := by
  norm_num [calculate_score, correctCount, mkQ]

end TutorIA
